import Mathlib

/-!
Shallow embedding of the `proalgotrader_docs` repository.

The repository is a Docusaurus documentation site for the ProAlgoTrader
trading-strategy framework.  It consists of Markdown documentation pages
under `docs/`, the site configuration `docusaurus.config.ts`, and the
sidebar configuration `sidebars.ts`.  This file embeds

* the repository's file manifest (paths and kinds),
* the configuration object exported by `docusaurus.config.ts`,
* the sidebar tree exported by `sidebars.ts`,
* the occurrences of the external library name `proalgotrader_core`
  (also spelled `proalgotrader-core`) in the repository's files, and
* the occurrences of error-handling patterns in the documentation,

and proves the specification's claims about them.
-/

namespace ProAlgoTraderDocs

/-- Prefix test on the underlying character lists (kernel-reducible,
unlike `String.startsWith`, which goes through byte positions). -/
def strHasPrefix (s p : String) : Bool := p.data.isPrefixOf s.data

/-- Suffix test on the underlying character lists (kernel-reducible). -/
def strHasSuffix (s p : String) : Bool := p.data.isSuffixOf s.data

/-- Remove one leading `/` from a string, if present.  Used to turn an
internal footer link target such as `/support/contact` into the document
ID `support/contact`. -/
def stripLeadingSlash (s : String) : String :=
  match s.data with
  | [] => s
  | c :: cs => if c = '/' then String.mk cs else s

/-- Kind of a file in the repository, as classified from its path. -/
inductive FileKind where
  | markdownDoc
  | siteConfig
  | sidebarConfig
  | other
deriving DecidableEq, Repr

/-- Paths of the repository's source files.  The first ten paths are the
files shipped with explicit names.  The remaining six are the documents
shipped without names; their paths are reconstructed from their content:
the front matter `title: Introduction` and the sidebar document IDs
`trading-and-strategy/position-management`,
`indicators/indicator-quick-reference`,
`getting-started/project-structure` and `getting-started/quick-start`
identify them as pages of the `docs/` tree, and the file exporting the
`sidebars` object with `docsSidebar` is the `sidebarPath` target
`./sidebars.ts` named by `docusaurus.config.ts`. -/
def repoPaths : List String :=
  [ "docs/examples/README.md"
  , "docs/examples/basic-strategy/README.md"
  , "docs/examples/iron-butterfly-strategy/README.md"
  , "docs/examples/iron-condor-strategy/README.md"
  , "docs/getting-started/installation.md"
  , "docs/indicators/built-in-indicators.md"
  , "docs/indicators/custom-indicators-guide.md"
  , "docs/support/contact.md"
  , "docs/trading-and-strategy/risk-management.md"
  , "docusaurus.config.ts"
  , "docs/intro.md"
  , "docs/trading-and-strategy/position-management.md"
  , "docs/indicators/indicator-quick-reference.md"
  , "docs/getting-started/project-structure.md"
  , "docs/getting-started/quick-start.md"
  , "sidebars.ts"
  ]

/-- Classify a repository file by its path: the Docusaurus site
configuration, the sidebar configuration, a Markdown documentation page,
or anything else. -/
def classifyFile (path : String) : FileKind :=
  if path = "docusaurus.config.ts" then FileKind.siteConfig
  else if path = "sidebars.ts" then FileKind.sidebarConfig
  else if strHasSuffix path ".md" then FileKind.markdownDoc
  else FileKind.other

/-- A file is a documentation page or one of the two static-site
configuration files. -/
def isDocOrSiteConfigFile (p : String) : Bool :=
  match classifyFile p with
  | FileKind.markdownDoc => true
  | FileKind.siteConfig => true
  | FileKind.sidebarConfig => true
  | FileKind.other => false

/-- The four values Docusaurus accepts for `onBrokenLinks`. -/
inductive BrokenLinkBehavior where
  | ignore
  | log
  | warn
  | throw
deriving DecidableEq, Repr

/-- The `future` flags block of `docusaurus.config.ts`. -/
structure FutureFlags where
  v4 : Bool
deriving DecidableEq, Repr

/-- The `i18n` block of `docusaurus.config.ts`. -/
structure I18n where
  defaultLocale : String
  locales : List String
deriving DecidableEq, Repr

/-- The `docs` options of the classic preset. -/
structure DocsPluginOptions where
  routeBasePath : String
  sidebarPath : String
  editUrl : String
deriving DecidableEq, Repr

/-- Options of the classic preset: `docs`, `blog` (`false` in the source,
which disables the blog plugin), and the `theme.customCss` path. -/
structure ClassicPresetOptions where
  docs : DocsPluginOptions
  blog : Bool
  customCss : String
deriving DecidableEq, Repr

/-- Options of the `@easyops-cn/docusaurus-search-local` theme. -/
structure LocalSearchOptions where
  hashed : Bool
  language : List String
  highlightSearchTermsOnTargetPage : Bool
  explicitSearchResultPath : Bool
  indexDocs : Bool
  indexBlog : Bool
  indexPages : Bool
  docsRouteBasePath : String
  searchBarShortcutHint : Bool
  searchBarPosition : String
deriving DecidableEq, Repr

/-- The `colorMode` block of `themeConfig`. -/
structure ColorMode where
  respectPrefersColorScheme : Bool
deriving DecidableEq, Repr

/-- The navbar `logo` block. -/
structure NavbarLogo where
  alt : String
  src : String
  href : String
  target : String
deriving DecidableEq, Repr

/-- A navbar item: either the doc-sidebar entry (`type: 'docSidebar'`)
or an external link (`href`). -/
inductive NavbarItem where
  | docSidebarItem (sidebarId : String) (position : String) (label : String)
  | externalLink (href : String) (label : String) (position : String)
deriving DecidableEq, Repr

/-- The `navbar` block of `themeConfig`. -/
structure Navbar where
  title : String
  logo : NavbarLogo
  items : List NavbarItem
deriving DecidableEq, Repr

/-- A footer link: internal (the source's `to` field, a site-relative
path, embedded as `toPath` because `to` is reserved in Lean) or external
(an `href` field, an absolute URL). -/
inductive FooterLink where
  | internalLink (label : String) (toPath : String)
  | externalLink (label : String) (href : String)
deriving DecidableEq, Repr

/-- One titled column of footer links. -/
structure FooterColumn where
  title : String
  items : List FooterLink
deriving DecidableEq, Repr

/-- The `footer` block of `themeConfig`.  The source builds the copyright
string from the current year (`new Date().getFullYear()`), so it is
embedded as a function of the year. -/
structure Footer where
  style : String
  links : List FooterColumn
  copyrightOf : Nat → String

/-- The `prism` block of `themeConfig`.  The source references the
imported theme objects `prismThemes.github` and `prismThemes.dracula`;
they are embedded by their names. -/
structure Prism where
  theme : String
  darkTheme : String
  additionalLanguages : List String
deriving DecidableEq, Repr

/-- The `themeConfig` block of `docusaurus.config.ts`. -/
structure ThemeConfig where
  image : String
  colorMode : ColorMode
  navbar : Navbar
  footer : Footer
  prism : Prism

/-- The shape of the configuration object of `docusaurus.config.ts`.
Presets and themes are lists of name/options pairs, mirroring the nested
array syntax `[['classic', {...}]]` of the source. -/
structure Config where
  title : String
  tagline : String
  favicon : String
  future : FutureFlags
  url : String
  baseUrl : String
  organizationName : String
  projectName : String
  onBrokenLinks : BrokenLinkBehavior
  i18n : I18n
  presets : List (String × ClassicPresetOptions)
  themes : List (String × LocalSearchOptions)
  themeConfig : ThemeConfig

/-- The configuration object exported by `docusaurus.config.ts`,
field for field. -/
def config : Config :=
  { title := "ProAlgoTrader"
  , tagline := "Build profitable algorithmic trading strategies with ease"
  , favicon := "img/favicon.ico"
  , future := { v4 := true }
  , url := "https://docs.proalgotrader.com"
  , baseUrl := "/"
  , organizationName := "krunaldodiya"
  , projectName := "proalgotrader_docs"
  , onBrokenLinks := BrokenLinkBehavior.warn
  , i18n := { defaultLocale := "en", locales := ["en"] }
  , presets :=
      [ ( "classic"
        , { docs :=
              { routeBasePath := "/"
              , sidebarPath := "./sidebars.ts"
              , editUrl :=
                  "https://github.com/krunaldodiya/proalgotrader_docs/tree/main/" }
          , blog := false
          , customCss := "./src/css/custom.css" } ) ]
  , themes :=
      [ ( "@easyops-cn/docusaurus-search-local"
        , { hashed := true
          , language := ["en"]
          , highlightSearchTermsOnTargetPage := true
          , explicitSearchResultPath := true
          , indexDocs := true
          , indexBlog := false
          , indexPages := false
          , docsRouteBasePath := "/"
          , searchBarShortcutHint := true
          , searchBarPosition := "right" } ) ]
  , themeConfig :=
      { image := "img/docusaurus-social-card.jpg"
      , colorMode := { respectPrefersColorScheme := true }
      , navbar :=
          { title := "ProAlgoTrader"
          , logo :=
              { alt := "ProAlgoTrader Logo"
              , src := "img/logo.svg"
              , href := "https://www.proalgotrader.com"
              , target := "_blank" }
          , items :=
              [ NavbarItem.docSidebarItem "docsSidebar" "left" "Documentation"
              , NavbarItem.externalLink "https://www.proalgotrader.com"
                  "Main Website" "right"
              , NavbarItem.externalLink
                  "https://github.com/krunaldodiya/proalgotrader_docs"
                  "GitHub" "right" ] }
      , footer :=
          { style := "dark"
          , links :=
              [ { title := "Documentation"
                , items :=
                    [ FooterLink.internalLink "Getting Started"
                        "/getting-started/installation"
                    , FooterLink.internalLink "Core Concepts"
                        "/core-concepts/algorithm-overview"
                    , FooterLink.internalLink "API Reference"
                        "/api-reference/algorithm-api" ] }
              , { title := "Community"
                , items :=
                    [ FooterLink.externalLink "Main Website"
                        "https://www.proalgotrader.com"
                    , FooterLink.externalLink "GitHub"
                        "https://github.com/krunaldodiya/proalgotrader_docs"
                    , FooterLink.internalLink "Support" "/support/contact" ] }
              , { title := "Resources"
                , items :=
                    [ FooterLink.internalLink "Examples" "/examples/README"
                    , FooterLink.internalLink "Troubleshooting"
                        "/support/troubleshooting" ] } ]
          , copyrightOf := fun year =>
              "Copyright © " ++ toString year ++
                " ProAlgoTrader. Built with Docusaurus." }
      , prism :=
          { theme := "github"
          , darkTheme := "dracula"
          , additionalLanguages := ["python", "bash", "json", "yaml"] } } }

/-- An entry of a sidebar in `sidebars.ts`: either a plain document ID
string, or a category node (`type: 'category'`) with a label, a
`collapsed` flag, an optional link (in the source a `{type: 'doc', id}`
object, embedded by its document ID) and a list of child items. -/
inductive SidebarItem where
  | doc (id : String)
  | category (label : String) (collapsed : Bool) (link : Option String)
      (items : List SidebarItem)

/-- The `docsSidebar` array of the `sidebars` object in `sidebars.ts`,
entry for entry and in source order. -/
def docsSidebar : List SidebarItem :=
  [ SidebarItem.doc "intro"
  , SidebarItem.category "Getting Started" false none
      [ SidebarItem.doc "getting-started/installation"
      , SidebarItem.doc "getting-started/quick-start"
      , SidebarItem.doc "getting-started/project-structure" ]
  , SidebarItem.category "Core Concepts" false none
      [ SidebarItem.doc "core-concepts/algorithm-overview"
      , SidebarItem.doc "core-concepts/session-management"
      , SidebarItem.doc "core-concepts/api-integration" ]
  , SidebarItem.category "Indicators" false none
      [ SidebarItem.doc "indicators/built-in-indicators"
      , SidebarItem.doc "indicators/custom-indicators-guide"
      , SidebarItem.doc "indicators/indicator-quick-reference"
      , SidebarItem.doc "indicators/tradingview-indicators" ]
  , SidebarItem.category "Trading & Strategy" false none
      [ SidebarItem.doc "trading-and-strategy/order-management"
      , SidebarItem.doc "trading-and-strategy/position-management"
      , SidebarItem.doc "trading-and-strategy/signal-management"
      , SidebarItem.doc "trading-and-strategy/risk-management" ]
  , SidebarItem.category "Brokers & Integration" false none
      [ SidebarItem.doc "brokers-and-integration/supported-brokers"
      , SidebarItem.doc "brokers-and-integration/fyers-integration"
      , SidebarItem.doc "brokers-and-integration/angel-one-integration"
      , SidebarItem.doc "brokers-and-integration/shoonya-integration" ]
  , SidebarItem.category "Development" false none
      [ SidebarItem.doc "development/development-setup"
      , SidebarItem.doc "development/contributing-guidelines"
      , SidebarItem.doc "development/testing-guide"
      , SidebarItem.doc "development/deployment-guide" ]
  , SidebarItem.category "API Reference" false none
      [ SidebarItem.doc "api-reference/algorithm-api"
      , SidebarItem.doc "api-reference/core-api-reference"
      , SidebarItem.doc "api-reference/indicators-api" ]
  , SidebarItem.category "Examples" false (some "examples/README") []
  , SidebarItem.category "Support" false none
      [ SidebarItem.doc "support/troubleshooting"
      , SidebarItem.doc "support/faq"
      , SidebarItem.doc "support/contact" ]
  ]

/-- The `sidebars` object exported by `sidebars.ts`: named sidebars,
here exactly one, `docsSidebar`. -/
def sidebars : List (String × List SidebarItem) :=
  [("docsSidebar", docsSidebar)]

/-- An entry is a plain document ID string. -/
def isDocEntry : SidebarItem → Bool
  | SidebarItem.doc _ => true
  | SidebarItem.category _ _ _ _ => false

/-- A top-level sidebar entry is well formed when it is a document ID
string, or a category all of whose child items are document ID strings
(its optional link is a document ID by construction of the embedding). -/
def entryWellFormed : SidebarItem → Bool
  | SidebarItem.doc _ => true
  | SidebarItem.category _ _ _ items => items.all isDocEntry

/-- Document IDs registered by one top-level sidebar entry: the entry
itself when it is a plain item, and for a category its optional link doc
together with its plain child items. -/
def entryDocIds : SidebarItem → List String
  | SidebarItem.doc i => [i]
  | SidebarItem.category _ _ link items =>
      link.toList ++ items.filterMap fun it =>
        match it with
        | SidebarItem.doc i => some i
        | SidebarItem.category _ _ _ _ => none

/-- All document IDs registered in the `docsSidebar` navigation tree. -/
def registeredDocIds : List String := (docsSidebar.map entryDocIds).flatten

/-- The target of a footer link when it is internal (a `to` field). -/
def footerLinkTarget : FooterLink → Option String
  | FooterLink.internalLink _ t => some t
  | FooterLink.externalLink _ _ => none

/-- The internal footer link targets of the site configuration, with the
leading `/` removed. -/
def footerInternalTargets : List String :=
  ((config.themeConfig.footer.links.map fun col =>
      col.items.filterMap footerLinkTarget).flatten).map stripLeadingSlash

/-- Context of one occurrence of the library name
`proalgotrader_core` / `proalgotrader-core` in a repository file: a
Python import line inside an example code block, a dependency listing
inside an example requirements file, a comment inside an example code
block, a shell command inside an example code block, or running prose of
the documentation. -/
inductive OccContext where
  | importLine
  | dependencyListing
  | codeComment
  | shellCommand
  | prose
deriving DecidableEq, Repr

/-- One occurrence of the library name in a repository file, by file
path and line number.  For the two documents reconstructed from a
concatenated shipping file, line numbers are relative to the document
itself (`docs/trading-and-strategy/position-management.md` starts 131
lines into its shipping file). -/
structure Occurrence where
  file : String
  line : Nat
  context : OccContext
deriving DecidableEq, Repr

/-- Every occurrence of `proalgotrader_core` / `proalgotrader-core` in
the repository's files, in file order, with its context. -/
def coreOccurrences : List Occurrence :=
  [ Occurrence.mk "docs/indicators/built-in-indicators.md" 66 OccContext.importLine
  , Occurrence.mk "docs/indicators/built-in-indicators.md" 88 OccContext.importLine
  , Occurrence.mk "docs/indicators/built-in-indicators.md" 113 OccContext.importLine
  , Occurrence.mk "docs/indicators/built-in-indicators.md" 136 OccContext.importLine
  , Occurrence.mk "docs/indicators/built-in-indicators.md" 157 OccContext.importLine
  , Occurrence.mk "docs/indicators/built-in-indicators.md" 182 OccContext.importLine
  , Occurrence.mk "docs/indicators/built-in-indicators.md" 202 OccContext.importLine
  , Occurrence.mk "docs/indicators/built-in-indicators.md" 229 OccContext.importLine
  , Occurrence.mk "docs/indicators/built-in-indicators.md" 250 OccContext.importLine
  , Occurrence.mk "docs/indicators/built-in-indicators.md" 271 OccContext.importLine
  , Occurrence.mk "docs/indicators/built-in-indicators.md" 300 OccContext.importLine
  , Occurrence.mk "docs/indicators/built-in-indicators.md" 325 OccContext.importLine
  , Occurrence.mk "docs/indicators/built-in-indicators.md" 342 OccContext.importLine
  , Occurrence.mk "docs/indicators/built-in-indicators.md" 363 OccContext.importLine
  , Occurrence.mk "docs/indicators/built-in-indicators.md" 384 OccContext.importLine
  , Occurrence.mk "docs/indicators/built-in-indicators.md" 422 OccContext.importLine
  , Occurrence.mk "docs/indicators/built-in-indicators.md" 438 OccContext.importLine
  , Occurrence.mk "docs/indicators/built-in-indicators.md" 439 OccContext.importLine
  , Occurrence.mk "docs/indicators/custom-indicators-guide.md" 83 OccContext.importLine
  , Occurrence.mk "docs/indicators/custom-indicators-guide.md" 124 OccContext.importLine
  , Occurrence.mk "docs/indicators/custom-indicators-guide.md" 285 OccContext.importLine
  , Occurrence.mk "docs/examples/iron-condor-strategy/README.md" 424 OccContext.importLine
  , Occurrence.mk "docs/examples/iron-condor-strategy/README.md" 441 OccContext.codeComment
  , Occurrence.mk "docs/examples/iron-condor-strategy/README.md" 446 OccContext.prose
  , Occurrence.mk "docs/examples/iron-condor-strategy/README.md" 821 OccContext.importLine
  , Occurrence.mk "docs/examples/iron-condor-strategy/README.md" 972 OccContext.importLine
  , Occurrence.mk "docs/examples/iron-condor-strategy/README.md" 973 OccContext.importLine
  , Occurrence.mk "docs/examples/iron-condor-strategy/README.md" 1007 OccContext.importLine
  , Occurrence.mk "docs/examples/iron-condor-strategy/README.md" 1008 OccContext.importLine
  , Occurrence.mk "docs/examples/iron-condor-strategy/README.md" 1016 OccContext.importLine
  , Occurrence.mk "docs/examples/iron-condor-strategy/README.md" 1017 OccContext.importLine
  , Occurrence.mk "docs/examples/iron-condor-strategy/README.md" 1042 OccContext.importLine
  , Occurrence.mk "docs/examples/iron-condor-strategy/README.md" 1043 OccContext.importLine
  , Occurrence.mk "docs/examples/iron-condor-strategy/README.md" 1044 OccContext.importLine
  , Occurrence.mk "docs/examples/iron-condor-strategy/README.md" 1077 OccContext.importLine
  , Occurrence.mk "docs/examples/iron-condor-strategy/README.md" 1078 OccContext.importLine
  , Occurrence.mk "docs/examples/iron-condor-strategy/README.md" 1079 OccContext.importLine
  , Occurrence.mk "docs/examples/iron-condor-strategy/README.md" 1122 OccContext.importLine
  , Occurrence.mk "docs/examples/iron-condor-strategy/README.md" 1123 OccContext.importLine
  , Occurrence.mk "docs/examples/iron-condor-strategy/README.md" 1124 OccContext.importLine
  , Occurrence.mk "docs/examples/iron-condor-strategy/README.md" 1125 OccContext.importLine
  , Occurrence.mk "docs/examples/iron-condor-strategy/README.md" 1126 OccContext.importLine
  , Occurrence.mk "docs/examples/iron-condor-strategy/README.md" 1127 OccContext.importLine
  , Occurrence.mk "docs/examples/iron-condor-strategy/README.md" 1128 OccContext.importLine
  , Occurrence.mk "docs/examples/iron-condor-strategy/README.md" 1129 OccContext.importLine
  , Occurrence.mk "docs/examples/iron-condor-strategy/README.md" 1232 OccContext.importLine
  , Occurrence.mk "docs/examples/iron-condor-strategy/README.md" 1254 OccContext.importLine
  , Occurrence.mk "docs/examples/iron-condor-strategy/README.md" 1279 OccContext.importLine
  , Occurrence.mk "docs/examples/iron-condor-strategy/README.md" 1477 OccContext.importLine
  , Occurrence.mk "docs/examples/iron-condor-strategy/README.md" 1478 OccContext.importLine
  , Occurrence.mk "docs/examples/iron-condor-strategy/README.md" 1479 OccContext.importLine
  , Occurrence.mk "docs/examples/iron-condor-strategy/README.md" 1480 OccContext.importLine
  , Occurrence.mk "docs/examples/iron-condor-strategy/README.md" 1481 OccContext.importLine
  , Occurrence.mk "docs/examples/iron-condor-strategy/README.md" 1482 OccContext.importLine
  , Occurrence.mk "docs/examples/iron-condor-strategy/README.md" 1543 OccContext.importLine
  , Occurrence.mk "docs/examples/iron-condor-strategy/README.md" 1544 OccContext.importLine
  , Occurrence.mk "docs/examples/iron-condor-strategy/README.md" 1545 OccContext.importLine
  , Occurrence.mk "docs/examples/iron-condor-strategy/README.md" 1546 OccContext.importLine
  , Occurrence.mk "docs/examples/iron-condor-strategy/README.md" 1547 OccContext.importLine
  , Occurrence.mk "docs/examples/iron-condor-strategy/README.md" 1548 OccContext.importLine
  , Occurrence.mk "docs/examples/iron-condor-strategy/README.md" 1631 OccContext.importLine
  , Occurrence.mk "docs/examples/iron-condor-strategy/README.md" 1632 OccContext.importLine
  , Occurrence.mk "docs/examples/iron-condor-strategy/README.md" 1633 OccContext.importLine
  , Occurrence.mk "docs/examples/iron-condor-strategy/README.md" 1634 OccContext.importLine
  , Occurrence.mk "docs/examples/iron-condor-strategy/README.md" 1635 OccContext.importLine
  , Occurrence.mk "docs/examples/iron-condor-strategy/README.md" 1636 OccContext.importLine
  , Occurrence.mk "docs/examples/iron-condor-strategy/README.md" 1637 OccContext.importLine
  , Occurrence.mk "docs/examples/iron-condor-strategy/README.md" 1711 OccContext.importLine
  , Occurrence.mk "docs/examples/iron-condor-strategy/README.md" 1712 OccContext.importLine
  , Occurrence.mk "docs/examples/iron-condor-strategy/README.md" 1713 OccContext.importLine
  , Occurrence.mk "docs/examples/iron-condor-strategy/README.md" 1714 OccContext.importLine
  , Occurrence.mk "docs/examples/iron-condor-strategy/README.md" 1715 OccContext.importLine
  , Occurrence.mk "docs/examples/iron-condor-strategy/README.md" 1716 OccContext.importLine
  , Occurrence.mk "docs/trading-and-strategy/risk-management.md" 13 OccContext.importLine
  , Occurrence.mk "docs/trading-and-strategy/risk-management.md" 14 OccContext.importLine
  , Occurrence.mk "docs/trading-and-strategy/risk-management.md" 36 OccContext.importLine
  , Occurrence.mk "docs/trading-and-strategy/risk-management.md" 37 OccContext.importLine
  , Occurrence.mk "docs/trading-and-strategy/risk-management.md" 55 OccContext.importLine
  , Occurrence.mk "docs/trading-and-strategy/risk-management.md" 56 OccContext.importLine
  , Occurrence.mk "docs/trading-and-strategy/risk-management.md" 85 OccContext.importLine
  , Occurrence.mk "docs/trading-and-strategy/risk-management.md" 86 OccContext.importLine
  , Occurrence.mk "docs/trading-and-strategy/risk-management.md" 139 OccContext.importLine
  , Occurrence.mk "docs/trading-and-strategy/risk-management.md" 140 OccContext.importLine
  , Occurrence.mk "docs/trading-and-strategy/risk-management.md" 189 OccContext.importLine
  , Occurrence.mk "docs/trading-and-strategy/risk-management.md" 190 OccContext.importLine
  , Occurrence.mk "docs/trading-and-strategy/risk-management.md" 191 OccContext.importLine
  , Occurrence.mk "docs/trading-and-strategy/risk-management.md" 226 OccContext.importLine
  , Occurrence.mk "docs/trading-and-strategy/risk-management.md" 227 OccContext.importLine
  , Occurrence.mk "docs/trading-and-strategy/risk-management.md" 235 OccContext.importLine
  , Occurrence.mk "docs/trading-and-strategy/risk-management.md" 236 OccContext.importLine
  , Occurrence.mk "docs/trading-and-strategy/risk-management.md" 373 OccContext.importLine
  , Occurrence.mk "docs/trading-and-strategy/risk-management.md" 392 OccContext.importLine
  , Occurrence.mk "docs/trading-and-strategy/risk-management.md" 517 OccContext.importLine
  , Occurrence.mk "docs/trading-and-strategy/risk-management.md" 557 OccContext.importLine
  , Occurrence.mk "docs/trading-and-strategy/risk-management.md" 558 OccContext.importLine
  , Occurrence.mk "docs/trading-and-strategy/risk-management.md" 596 OccContext.importLine
  , Occurrence.mk "docs/trading-and-strategy/risk-management.md" 597 OccContext.importLine
  , Occurrence.mk "docs/getting-started/installation.md" 52 OccContext.codeComment
  , Occurrence.mk "docs/getting-started/installation.md" 94 OccContext.shellCommand
  , Occurrence.mk "docs/getting-started/installation.md" 115 OccContext.importLine
  , Occurrence.mk "docs/getting-started/installation.md" 116 OccContext.importLine
  , Occurrence.mk "docs/getting-started/installation.md" 144 OccContext.importLine
  , Occurrence.mk "docs/getting-started/installation.md" 145 OccContext.importLine
  , Occurrence.mk "docs/getting-started/installation.md" 146 OccContext.importLine
  , Occurrence.mk "docs/getting-started/installation.md" 165 OccContext.importLine
  , Occurrence.mk "docs/getting-started/installation.md" 166 OccContext.importLine
  , Occurrence.mk "docs/getting-started/installation.md" 167 OccContext.importLine
  , Occurrence.mk "docs/support/contact.md" 77 OccContext.prose
  , Occurrence.mk "docs/support/contact.md" 78 OccContext.prose
  , Occurrence.mk "docs/getting-started/quick-start.md" 8 OccContext.prose
  , Occurrence.mk "docs/getting-started/quick-start.md" 16 OccContext.prose
  , Occurrence.mk "docs/getting-started/quick-start.md" 22 OccContext.prose
  , Occurrence.mk "docs/getting-started/quick-start.md" 60 OccContext.codeComment
  , Occurrence.mk "docs/getting-started/quick-start.md" 89 OccContext.importLine
  , Occurrence.mk "docs/getting-started/quick-start.md" 132 OccContext.codeComment
  , Occurrence.mk "docs/getting-started/quick-start.md" 169 OccContext.importLine
  , Occurrence.mk "docs/getting-started/quick-start.md" 170 OccContext.importLine
  , Occurrence.mk "docs/intro.md" 95 OccContext.importLine
  , Occurrence.mk "docs/intro.md" 96 OccContext.importLine
  , Occurrence.mk "docs/trading-and-strategy/position-management.md" 38 OccContext.importLine
  , Occurrence.mk "docs/trading-and-strategy/position-management.md" 61 OccContext.importLine
  , Occurrence.mk "docs/trading-and-strategy/position-management.md" 62 OccContext.importLine
  , Occurrence.mk "docs/trading-and-strategy/position-management.md" 63 OccContext.importLine
  , Occurrence.mk "docs/trading-and-strategy/position-management.md" 105 OccContext.importLine
  , Occurrence.mk "docs/trading-and-strategy/position-management.md" 106 OccContext.importLine
  , Occurrence.mk "docs/trading-and-strategy/position-management.md" 107 OccContext.importLine
  , Occurrence.mk "docs/trading-and-strategy/position-management.md" 214 OccContext.importLine
  , Occurrence.mk "docs/trading-and-strategy/position-management.md" 215 OccContext.importLine
  , Occurrence.mk "docs/trading-and-strategy/position-management.md" 232 OccContext.importLine
  , Occurrence.mk "docs/trading-and-strategy/position-management.md" 233 OccContext.importLine
  , Occurrence.mk "docs/indicators/indicator-quick-reference.md" 8 OccContext.importLine
  , Occurrence.mk "docs/indicators/indicator-quick-reference.md" 36 OccContext.importLine
  , Occurrence.mk "docs/getting-started/project-structure.md" 32 OccContext.importLine
  , Occurrence.mk "docs/getting-started/project-structure.md" 50 OccContext.importLine
  , Occurrence.mk "docs/getting-started/project-structure.md" 51 OccContext.importLine
  , Occurrence.mk "docs/getting-started/project-structure.md" 72 OccContext.importLine
  , Occurrence.mk "docs/getting-started/project-structure.md" 111 OccContext.dependencyListing
  ]

/-- An occurrence of an error-handling pattern in a repository file:
`try`/`except`/`raise` statements in example Python code, and
troubleshooting or common-issues sections, by file path and line number
(line numbers relative to the reconstructed document where applicable). -/
structure ErrorPatternOccurrence where
  file : String
  line : Nat
deriving DecidableEq, Repr

/-- The error-handling patterns appearing in the repository's files:
every `raise` statement and `try`/`except` block of example code, and
every troubleshooting or common-issues section heading. -/
def errorPatternOccurrences : List ErrorPatternOccurrence :=
  [ ErrorPatternOccurrence.mk "docs/indicators/built-in-indicators.md" 559
  , ErrorPatternOccurrence.mk "docs/indicators/built-in-indicators.md" 561
  , ErrorPatternOccurrence.mk "docs/indicators/custom-indicators-guide.md" 469
  , ErrorPatternOccurrence.mk "docs/indicators/custom-indicators-guide.md" 496
  , ErrorPatternOccurrence.mk "docs/indicators/custom-indicators-guide.md" 498
  , ErrorPatternOccurrence.mk "docs/indicators/custom-indicators-guide.md" 499
  , ErrorPatternOccurrence.mk "docs/indicators/custom-indicators-guide.md" 559
  , ErrorPatternOccurrence.mk "docs/indicators/custom-indicators-guide.md" 561
  , ErrorPatternOccurrence.mk "docs/examples/iron-condor-strategy/README.md" 1236
  , ErrorPatternOccurrence.mk "docs/examples/iron-condor-strategy/README.md" 1239
  , ErrorPatternOccurrence.mk "docs/examples/iron-condor-strategy/README.md" 1531
  , ErrorPatternOccurrence.mk "docs/examples/iron-condor-strategy/README.md" 1536
  , ErrorPatternOccurrence.mk "docs/examples/iron-condor-strategy/README.md" 1599
  , ErrorPatternOccurrence.mk "docs/examples/iron-condor-strategy/README.md" 1605
  , ErrorPatternOccurrence.mk "docs/examples/iron-condor-strategy/README.md" 1610
  , ErrorPatternOccurrence.mk "docs/examples/iron-condor-strategy/README.md" 1616
  , ErrorPatternOccurrence.mk "docs/examples/iron-condor-strategy/README.md" 1672
  , ErrorPatternOccurrence.mk "docs/examples/iron-condor-strategy/README.md" 1702
  , ErrorPatternOccurrence.mk "docs/examples/iron-condor-strategy/README.md" 1746
  , ErrorPatternOccurrence.mk "docs/examples/iron-condor-strategy/README.md" 1757
  , ErrorPatternOccurrence.mk "docs/examples/iron-condor-strategy/README.md" 1883
  , ErrorPatternOccurrence.mk "docs/examples/iron-condor-strategy/README.md" 1885
  , ErrorPatternOccurrence.mk "docs/examples/iron-condor-strategy/README.md" 1910
  , ErrorPatternOccurrence.mk "docs/trading-and-strategy/risk-management.md" 281
  , ErrorPatternOccurrence.mk "docs/getting-started/installation.md" 220
  , ErrorPatternOccurrence.mk "docs/getting-started/installation.md" 222
  , ErrorPatternOccurrence.mk "docs/indicators/indicator-quick-reference.md" 253
  , ErrorPatternOccurrence.mk "docs/indicators/indicator-quick-reference.md" 288
  ]

/-- Outcome of a documentation build. -/
inductive BuildResult where
  | success
  | successWithWarnings
  | failed
deriving DecidableEq, Repr

/-- Modelled from the spec: the reaction of a documentation build to
broken internal links is implemented by the Docusaurus build system,
which this repository does not contain; only its `onBrokenLinks`
configuration value is present here.  Per the configuration files
(the source comment reads "Changed from 'throw' to allow build with
warnings"): a build with no broken links succeeds; with broken links it
fails under `throw`, completes with warnings under `warn` or `log`, and
completes silently under `ignore`. -/
def brokenLinkBuildResult : BrokenLinkBehavior → Bool → BuildResult
  | _, false => BuildResult.success
  | BrokenLinkBehavior.throw, true => BuildResult.failed
  | BrokenLinkBehavior.warn, true => BuildResult.successWithWarnings
  | BrokenLinkBehavior.log, true => BuildResult.successWithWarnings
  | BrokenLinkBehavior.ignore, true => BuildResult.success

/-- Claim C1: every source file of the repository is a Markdown
documentation page or a static-site configuration file (the Docusaurus
site config or the sidebar config); no file is executable source (in
particular no Python file) implementing the trading-strategy framework
itself. -/
theorem C1_every_file_doc_or_config :
    (repoPaths.all fun p =>
      isDocOrSiteConfigFile p && !(strHasSuffix p ".py")) = true := by decide

/-- Claim C2: the site configuration object specifies the title
`ProAlgoTrader`, the production URL `https://docs.proalgotrader.com`,
theme settings (color mode, navbar, footer, prism themes, and the local
search theme), and preset settings (the `classic` preset with docs
served at the site root and the blog disabled). -/
theorem C2_config_title_url_theme_preset :
    config.title = "ProAlgoTrader" ∧
    config.url = "https://docs.proalgotrader.com" ∧
    config.themeConfig.colorMode.respectPrefersColorScheme = true ∧
    config.themeConfig.navbar.title = "ProAlgoTrader" ∧
    config.themeConfig.footer.style = "dark" ∧
    config.themeConfig.prism.theme = "github" ∧
    config.themeConfig.prism.darkTheme = "dracula" ∧
    config.themes.map Prod.fst = ["@easyops-cn/docusaurus-search-local"] ∧
    (config.presets.map fun pr =>
      (pr.fst, pr.snd.docs.routeBasePath, pr.snd.blog)) =
      [("classic", "/", false)] := by decide

/-- Claim C3: the exported sidebars object contains exactly one sidebar,
named `docsSidebar`, and each of its entries is either a document ID
string or a category node whose child items (and optional link) are
document ID strings, so the navigation tree is finite with document IDs
at the leaves. -/
theorem C3_sidebar_is_tree_of_doc_ids :
    sidebars.map Prod.fst = ["docsSidebar"] ∧
    docsSidebar.all entryWellFormed = true := by decide

/-- Claim C4, counterexample: the occurrence of `proalgotrader_core` at
line 8 of the quick-start page is a prose mention, neither an import
line nor a dependency listing in an example code block, so not every
occurrence has the form the claim states. -/
theorem C4_counterexample_prose_occurrence :
    Occurrence.mk "docs/getting-started/quick-start.md" 8 OccContext.prose
      ∈ coreOccurrences ∧
    OccContext.prose ≠ OccContext.importLine ∧
    OccContext.prose ≠ OccContext.dependencyListing := by decide

/-- Claim C4 as amended: every occurrence of `proalgotrader_core` (or
`proalgotrader-core`) in the repository's files lies inside a Markdown
documentation page — as an import line, a dependency listing, a code
comment, a shell command, or a prose mention — and no file of the
repository defines any module, class, or function of that library (the
repository contains no Python source file at all). -/
theorem C4_occurrences_only_inside_docs :
    (coreOccurrences.all fun o =>
      match classifyFile o.file with
      | FileKind.markdownDoc => true
      | _ => false) = true ∧
    (repoPaths.all fun p => !(strHasSuffix p ".py")) = true := by decide

/-- Claim C5, counterexample: the configuration files do fix field
values and cross-file consistency conditions that a mechanical check
settles — the site title is fixed to `ProAlgoTrader`, and the footer
link target `/support/contact`, with its leading slash removed, is a
document ID registered in the sidebar tree; both conjuncts are settled
here by a decision procedure. -/
theorem C5_counterexample_checkable_config_facts :
    config.title = "ProAlgoTrader" ∧
    registeredDocIds.contains (stripLeadingSlash "/support/contact")
      = true := by decide

/-- Claim C5 as amended: the repository's files carry no executable
behavior (every file is a documentation page or a site configuration
file), but the configuration files do fix concrete field values and a
cross-file consistency condition (every internal footer link target
resolves to a sidebar document ID) that a mechanical check settles. -/
theorem C5_config_fixes_checkable_values :
    repoPaths.all isDocOrSiteConfigFile = true ∧
    config.tagline = "Build profitable algorithmic trading strategies with ease" ∧
    (footerInternalTargets.all fun t => registeredDocIds.contains t)
      = true := by decide

/-- Claim C6: every Markdown documentation file of the repository lies
under the `docs` directory, and the classic preset serves that
directory with `routeBasePath` set to `/` and `sidebarPath` set to
`./sidebars.ts`. -/
theorem C6_markdown_docs_under_docs_dir :
    (repoPaths.all fun p =>
      match classifyFile p with
      | FileKind.markdownDoc => strHasPrefix p "docs/"
      | _ => true) = true ∧
    (config.presets.map fun pr =>
      (pr.fst, pr.snd.docs.routeBasePath, pr.snd.docs.sidebarPath)) =
      [("classic", "/", "./sidebars.ts")] := by decide

/-- Claim C7: every error-handling pattern appearing in the repository
(`try`/`except`/`raise` example code and troubleshooting sections) lies
inside a Markdown documentation page, and the repository contains no
executable file that could own an error taxonomy or error-propagation
logic — every file is a documentation page or a site configuration
file. -/
theorem C7_error_patterns_only_in_markdown :
    (errorPatternOccurrences.all fun o =>
      match classifyFile o.file with
      | FileKind.markdownDoc => true
      | _ => false) = true ∧
    repoPaths.all isDocOrSiteConfigFile = true := by decide

/-- Claim C8: the internationalization settings are self-consistent —
the default locale `en` is a member of the configured locales list
`["en"]`. -/
theorem C8_default_locale_in_locales :
    config.i18n.defaultLocale = "en" ∧
    config.i18n.locales = ["en"] ∧
    config.i18n.locales.contains config.i18n.defaultLocale = true := by
  decide

/-- Claim C9: the site configuration sets `onBrokenLinks` to `warn`
rather than `throw`, so (per the modelled Docusaurus build behavior) a
build with broken internal links completes with warnings, where under
`throw` it would fail. -/
theorem C9_broken_links_warn_not_throw :
    config.onBrokenLinks = BrokenLinkBehavior.warn ∧
    config.onBrokenLinks ≠ BrokenLinkBehavior.throw ∧
    brokenLinkBuildResult config.onBrokenLinks true
      = BuildResult.successWithWarnings ∧
    brokenLinkBuildResult BrokenLinkBehavior.throw true
      = BuildResult.failed := by decide

/-- Claim C10: the internal footer link targets of the site
configuration, with their leading slash removed, are exactly six
document IDs, each registered in the sidebar navigation tree (as a
plain item or as a category's link doc). -/
theorem C10_footer_targets_registered :
    footerInternalTargets =
      [ "getting-started/installation"
      , "core-concepts/algorithm-overview"
      , "api-reference/algorithm-api"
      , "support/contact"
      , "examples/README"
      , "support/troubleshooting" ] ∧
    (footerInternalTargets.all fun t => registeredDocIds.contains t)
      = true := by decide

end ProAlgoTraderDocs
